import Mathlib

/-!
Verification of the classification & aggregation pipeline of the
`painel-vendas-PE` dashboard (`thales_vendas.py`).

The script loads a JSON payload of per-city monthly sales
(`Cidade, AGO, SET, OUT, NOV`), derives a baseline column
`Media_Trimestre_Ant = (AGO + SET + OUT) / 3`, classifies each row with
`get_status`, filters by city and status, and aggregates totals and a
percentage variation.  Monetary amounts are embedded as rationals (`ℚ`);
a table is a list of rows.
-/

namespace ThalesVendas

/-- One parsed input record, after JSON decoding: the fields of the
schema `{Cidade, AGO, SET, OUT, NOV}`. -/
structure RawRow where
  Cidade : String
  AGO : ℚ
  SET : ℚ
  OUT : ℚ
  NOV : ℚ
deriving DecidableEq, Repr

/-- One row of the loaded table `df_full`: the input columns plus the two
derived columns `Media_Trimestre_Ant` and `Status` computed by `load_data`. -/
structure Row where
  Cidade : String
  AGO : ℚ
  SET : ℚ
  OUT : ℚ
  NOV : ℚ
  Media_Trimestre_Ant : ℚ
  Status : String
deriving DecidableEq, Repr

/-- `get_status` from `load_data` (lines 48–56): reads `row['NOV']` and
`row['Media_Trimestre_Ant']` and returns the label string, first match wins. -/
def get_status (row_NOV row_Media : ℚ) : String :=
  if row_NOV = 0 then
    "Sem Venda"
  else if row_NOV > row_Media * 1.1 then
    "Crescimento"
  else if row_NOV < row_Media * 0.9 then
    "Queda"
  else
    "Estável"

/-- Building one row of `df_full`: `df['Media_Trimestre_Ant'] = (df['AGO'] +
df['SET'] + df['OUT']) / 3` (line 45) and `df['Status'] = df.apply(get_status,
axis=1)` (line 58), per record. -/
def loadRow (r : RawRow) : Row :=
  let media := (r.AGO + r.SET + r.OUT) / 3
  { Cidade := r.Cidade, AGO := r.AGO, SET := r.SET, OUT := r.OUT, NOV := r.NOV
  , Media_Trimestre_Ant := media
  , Status := get_status r.NOV media }

/-- The rows of a successfully loaded table. -/
def loadRows (rs : List RawRow) : List Row := rs.map loadRow

/-- The well-formedness constraints of the data model on a loaded record:
the four monthly amounts are non-negative monetary values and
`Media_Trimestre_Ant` is the derived baseline. -/
def ValidRecord (r : Row) : Prop :=
  0 ≤ r.AGO ∧ 0 ≤ r.SET ∧ 0 ≤ r.OUT ∧ 0 ≤ r.NOV ∧
    r.Media_Trimestre_Ant = (r.AGO + r.SET + r.OUT) / 3

/-! ## Login gate (lines 17–30) -/

/-- `st.session_state['logado']` when the key is first created (line 18). -/
def logadoInicial : Bool := false

/-- `verificar_senha` (lines 20–24), as a transition on the `logado` flag:
given the stored secret, the submitted input and the current flag, it returns
the new flag and whether `st.error("Senha incorreta.")` was displayed.  A
match sets the flag to `true`; a mismatch shows the error and leaves the
flag untouched. -/
def verificar_senha (secret input : String) (logado : Bool) : Bool × Bool :=
  if input = secret then (true, false) else (logado, true)

/-- What one run of the gated part of the script renders. -/
inductive Rendered where
  /-- The login page (lines 27–30), reached through `st.stop()`; the flag
  records whether the wrong-password error is showing. -/
  | loginPage (errorShown : Bool)
  /-- The dashboard body past the gate (line 32 onwards). -/
  | dashboardBody
deriving DecidableEq, Repr

/-- One script rerun of the login gate: an optional password submission first
runs the `on_change` callback `verificar_senha`, then line 26 checks the flag;
when it is still `false` the login page is rendered and `st.stop()` halts the
run, otherwise execution continues into the dashboard body.  Returns the flag
after the run and what was rendered. -/
def gateRun (secret : String) (logado : Bool) (attempt : Option String) :
    Bool × Rendered :=
  let r := match attempt with
    | none => (logado, false)
    | some input => verificar_senha secret input logado
  if r.1 then (r.1, Rendered.dashboardBody) else (r.1, Rendered.loginPage r.2)

/-! ## Dataset loader (lines 35–64) -/

/-- The pandas table `load_data` builds, as far as the script observes it:
either a table of rows carrying the schema columns, or the column-less
`pd.DataFrame()` sentinel returned on failure. -/
inductive DataFrame where
  /-- A table whose rows carry the columns of the schema. -/
  | table (rows : List Row)
  /-- `pd.DataFrame()`: an empty frame with no columns at all. -/
  | emptyNoCols
deriving DecidableEq, Repr

/-- The input payload as `load_data` sees it after the fallible steps inside
the `try`: `none` when an exception is raised before the table is complete
(`json.loads` fails on a malformed payload, a schema column is absent so the
column arithmetic raises `KeyError` — in particular on the column-less frame
built from an empty record list — or a non-numeric amount makes the column
arithmetic raise `TypeError`); `some rows` when every record parsed with the
full numeric schema. -/
def LoadInput := Option (List RawRow)

/-- `load_data` (lines 35–62): on success the table with the two derived
columns and no error; on any exception the `except` branch displays
`st.error("Erro ao processar dados: ...")` and returns the empty
`pd.DataFrame()`.  The second component is the displayed error message. -/
def load_data : LoadInput → DataFrame × Option String
  | none => (DataFrame.emptyNoCols, some "Erro ao processar dados")
  | some [] => (DataFrame.emptyNoCols, some "Erro ao processar dados")
  | some (r :: rs) => (DataFrame.table (loadRows (r :: rs)), none)

/-- Reading the column `df_full['Cidade']` (line 86): on the column-less
empty frame this raises `KeyError`, modelled as `Except.error`. -/
def columnCidade : DataFrame → Except String (List String)
  | DataFrame.table rows => Except.ok (rows.map Row.Cidade)
  | DataFrame.emptyNoCols => Except.error "KeyError: Cidade"

/-! ## Sidebar filter (lines 86–106) -/

/-- Insert a string into an already sorted list of strings. -/
def insertSorted (x : String) : List String → List String
  | [] => [x]
  | y :: ys => if x ≤ y then x :: y :: ys else y :: insertSorted x ys

/-- `sorted(...)` on a list of strings, by insertion sort. -/
def sortStrings : List String → List String
  | [] => []
  | x :: xs => insertSorted x (sortStrings xs)

/-- `sorted(df_full['Cidade'].unique())` (line 86): the distinct city names of
the table, sorted. -/
def cidades_disponiveis (df : List Row) : List String :=
  sortStrings (df.map Row.Cidade).dedup

/-- `sorted(df_full['Status'].unique())` (line 95): the distinct status labels
of the table, sorted. -/
def status_disponiveis (df : List Row) : List String :=
  sortStrings (df.map Row.Status).dedup

/-- `df_full['Cidade'].isin(cidades_sel)`: the boolean mask of a column
against a selection, one entry per row. -/
def isinMask (df : List Row) (col : Row → String) (sel : List String) :
    List Bool :=
  df.map fun r => sel.contains (col r)

/-- `&` on two boolean masks, element-wise. -/
def maskAnd (m₁ m₂ : List Bool) : List Bool := List.zipWith and m₁ m₂

/-- Boolean-mask row selection `df_full[mask]`: keep the rows whose mask
entry is `true`, in order. -/
def selectByMask : List Row → List Bool → List Row
  | [], _ => []
  | _ :: _, [] => []
  | r :: rs, b :: bs =>
      if b then r :: selectByMask rs bs else selectByMask rs bs

/-- The filter application of lines 103–106:
`df_full[(df_full['Cidade'].isin(cidades_sel)) & (df_full['Status'].isin(status_sel))]`. -/
def aplicarFiltros (df : List Row) (cidades_sel status_sel : List String) :
    List Row :=
  selectByMask df
    (maskAnd (isinMask df Row.Cidade cidades_sel)
      (isinMask df Row.Status status_sel))

/-! ## Aggregator (lines 120–122) -/

/-- `total_nov = df['NOV'].sum()` (line 120). -/
def total_nov (df : List Row) : ℚ := (df.map Row.NOV).sum

/-- `total_media = df['Media_Trimestre_Ant'].sum()` (line 121). -/
def total_media (df : List Row) : ℚ := (df.map Row.Media_Trimestre_Ant).sum

/-- `variacao = ((total_nov / total_media) - 1) * 100 if total_media > 0 else 0`
(line 122). -/
def variacao (df : List Row) : ℚ :=
  if total_media df > 0 then (total_nov df / total_media df - 1) * 100 else 0

/-! ## One render cycle (lines 64–110) -/

/-- The outcome of one render cycle of the script past the login gate. -/
inductive CycleOutcome where
  /-- An uncaught exception aborts the script run. -/
  | crash (msg : String)
  /-- `st.warning("Nenhum dado encontrado...")` followed by `st.stop()`
  (lines 108–110): no metrics, charts or tables are rendered. -/
  | noResults
  /-- The full dashboard is rendered from the filtered rows. -/
  | dashboard (rows : List Row)
deriving DecidableEq, Repr

/-- One render cycle after login (lines 64–116): load the data, read the
available cities from the `Cidade` column — which raises `KeyError` on the
empty frame left by a failed load — apply the sidebar filters, and either
stop with the "no results" warning when the filtered table is empty or
render the dashboard from it. -/
def renderCycle (input : LoadInput) (cidades_sel status_sel : List String) :
    CycleOutcome :=
  match (load_data input).1 with
  | DataFrame.emptyNoCols => CycleOutcome.crash "KeyError: Cidade"
  | DataFrame.table rows =>
      let df := aplicarFiltros rows cidades_sel status_sel
      if df.isEmpty then CycleOutcome.noResults else CycleOutcome.dashboard df

/-! ## Sample data for concrete evaluations -/

/-- A sample input record: `Recife` with `AGO = SET = OUT = 100`, `NOV = 110`. -/
def rawRecife : RawRow :=
  { Cidade := "Recife", AGO := 100, SET := 100, OUT := 100, NOV := 110 }

/-- The loaded row for `rawRecife` (baseline `100`). -/
def rowRecife : Row := loadRow rawRecife

/-- A sample loaded row: `Olinda` with `AGO = SET = OUT = 50`, `NOV = 0`
(baseline `50`). -/
def rowOlinda : Row := loadRow { Cidade := "Olinda", AGO := 50, SET := 50, OUT := 50, NOV := 0 }

end ThalesVendas

namespace ThalesVendas

/-- **C2** — For every record the classifier assigns its status by the
prioritised rule, first match winning: `NOV == 0 → "Sem Venda"`, else
`NOV > Media * 1.1 → "Crescimento"`, else `NOV < Media * 0.9 → "Queda"`,
else `"Estável"`; and every record receives one of the four labels. -/
theorem get_status_rule (nov media : ℚ) :
    (nov = 0 → get_status nov media = "Sem Venda")
    ∧ (nov ≠ 0 → nov > media * 1.1 → get_status nov media = "Crescimento")
    ∧ (nov ≠ 0 → ¬ nov > media * 1.1 → nov < media * 0.9 →
        get_status nov media = "Queda")
    ∧ (nov ≠ 0 → ¬ nov > media * 1.1 → ¬ nov < media * 0.9 →
        get_status nov media = "Estável")
    ∧ (get_status nov media = "Sem Venda" ∨ get_status nov media = "Crescimento"
        ∨ get_status nov media = "Queda" ∨ get_status nov media = "Estável") := by
  unfold get_status
  by_cases h0 : nov = 0 <;> by_cases h1 : nov > media * 1.1 <;>
    by_cases h2 : nov < media * 0.9 <;>
    simp [h0, h1, h2]

/-- Witness for C2: the spec's concrete scenario `Recife`, `AGO=SET=OUT=100`,
`NOV=132`: baseline `100`, `132 > 110`, status `"Crescimento"`. -/
theorem get_status_rule_witness :
    get_status 132 100 = "Crescimento" :=
  (get_status_rule 132 100).2.1 (by norm_num) (by norm_num)

/-- **C6** — Exact threshold hits classify as `Estável`: with the data model's
non-negative amounts (so the baseline is non-negative), a nonzero `NOV` equal
to `Media * 1.1` is not `Crescimento` (strict `>`), and a nonzero `NOV` equal
to `Media * 0.9` is not `Queda` (strict `<`); both land in the `else` branch. -/
theorem get_status_boundary (nov media : ℚ) (hm : 0 ≤ media) :
    (nov = media * 1.1 → nov ≠ 0 → get_status nov media = "Estável")
    ∧ (nov = media * 0.9 → nov ≠ 0 → get_status nov media = "Estável") := by
  constructor
  · intro heq h0
    unfold get_status
    rw [if_neg h0, if_neg (by rw [heq]; simp), if_neg (by rw [heq]; nlinarith)]
  · intro heq h0
    unfold get_status
    rw [if_neg h0, if_neg (by rw [heq]; nlinarith), if_neg (by rw [heq]; simp)]

/-- Witness for C6: baseline `100` with `NOV = 110 = 100 * 1.1` and with
`NOV = 90 = 100 * 0.9` are both classified `Estável`. -/
theorem get_status_boundary_witness :
    get_status 110 100 = "Estável" ∧ get_status 90 100 = "Estável" :=
  ⟨(get_status_boundary 110 100 (by norm_num)).1 (by norm_num) (by norm_num),
   (get_status_boundary 90 100 (by norm_num)).2 (by norm_num) (by norm_num)⟩

/-- The boolean-mask selection of lines 103–106 is exactly a stable filter by
the conjunction of the two column predicates. -/
theorem aplicarFiltros_eq_filter (df : List Row) (cs ss : List String) :
    aplicarFiltros df cs ss
      = df.filter fun r => cs.contains r.Cidade && ss.contains r.Status := by
  induction df with
  | nil => rfl
  | cons r rs ih =>
      by_cases h : (cs.contains r.Cidade && ss.contains r.Status) = true <;>
        simp [aplicarFiltros, isinMask, maskAnd, selectByMask, h,
          List.filter_cons] at ih ⊢ <;>
        rw [ih]

/-- Membership in `insertSorted` is membership in the inputs. -/
theorem mem_insertSorted (a x : String) (l : List String) :
    a ∈ insertSorted x l ↔ a = x ∨ a ∈ l := by
  induction l with
  | nil => simp [insertSorted]
  | cons y ys ih =>
      by_cases h : x ≤ y
      · simp [insertSorted, h]
      · simp [insertSorted, h, ih]
        tauto

/-- Sorting a list of strings preserves membership. -/
theorem mem_sortStrings (a : String) (l : List String) :
    a ∈ sortStrings l ↔ a ∈ l := by
  induction l with
  | nil => simp [sortStrings]
  | cons x xs ih => simp [sortStrings, mem_insertSorted, ih]

/-- **C4** — The filter output is exactly the subsequence of rows whose city
is in the selected city list and whose status is in the selected status list,
in input order (a stable filter). -/
theorem aplicarFiltros_spec (df : List Row) (cs ss : List String) :
    aplicarFiltros df cs ss
      = (df.filter fun r => cs.contains r.Cidade && ss.contains r.Status)
    ∧ List.Sublist (aplicarFiltros df cs ss) df
    ∧ ∀ r : Row, r ∈ aplicarFiltros df cs ss ↔
        r ∈ df ∧ r.Cidade ∈ cs ∧ r.Status ∈ ss := by
  refine ⟨aplicarFiltros_eq_filter df cs ss, ?_, ?_⟩
  · rw [aplicarFiltros_eq_filter]
    exact List.filter_sublist df
  · intro r
    rw [aplicarFiltros_eq_filter]
    simp [List.mem_filter, and_assoc]

/-- **C5** — Filtering with the full available city list and the full
available status list is the identity: it returns the table unchanged, same
rows in the same order. -/
theorem filtro_identidade (df : List Row) :
    aplicarFiltros df (cidades_disponiveis df) (status_disponiveis df) = df := by
  rw [aplicarFiltros_eq_filter, List.filter_eq_self]
  intro r hr
  have hc : r.Cidade ∈ cidades_disponiveis df := by
    unfold cidades_disponiveis
    rw [mem_sortStrings, List.mem_dedup]
    exact List.mem_map_of_mem Row.Cidade hr
  have hs : r.Status ∈ status_disponiveis df := by
    unfold status_disponiveis
    rw [mem_sortStrings, List.mem_dedup]
    exact List.mem_map_of_mem Row.Status hr
  simp [hc, hs]

/-- **C3** — The aggregate: `total_nov` is the sum of the `NOV` column,
`total_media` the sum of the baseline column, and `variacao` equals
`(total_nov / total_media - 1) * 100` when `total_media > 0` and `0`
otherwise; on the empty table all three are `0` and no division is
attempted (the guard takes the `else` branch). -/
theorem aggregate_spec (df : List Row) :
    total_nov df = (df.map Row.NOV).sum
    ∧ total_media df = (df.map Row.Media_Trimestre_Ant).sum
    ∧ (total_media df > 0 →
        variacao df = (total_nov df / total_media df - 1) * 100)
    ∧ (¬ total_media df > 0 → variacao df = 0)
    ∧ total_nov ([] : List Row) = 0 ∧ total_media ([] : List Row) = 0
    ∧ variacao ([] : List Row) = 0 := by
  refine ⟨rfl, rfl, ?_, ?_, rfl, rfl, ?_⟩
  · intro h; simp [variacao, h]
  · intro h; simp [variacao, h]
  · simp [variacao, total_media]

/-- Witness for C3: on the one-row table `[rowRecife]` the baseline total is
`100 > 0` and the variation is computed by the division formula (value `10`). -/
theorem aggregate_spec_witness :
    total_media [rowRecife] > 0
    ∧ variacao [rowRecife]
        = (total_nov [rowRecife] / total_media [rowRecife] - 1) * 100
    ∧ variacao [rowRecife] = 10 := by
  have h : total_media [rowRecife] > 0 := by
    norm_num [total_media, rowRecife, rawRecife, loadRow]
  refine ⟨h, (aggregate_spec [rowRecife]).2.2.1 h, ?_⟩
  norm_num [variacao, total_media, total_nov, rowRecife, rawRecife, loadRow]

/-- **C9** — Totals are additive over concatenation of (disjoint) filtered
subsets, while `variacao` is not additive and is recomputed from the combined
totals. -/
theorem aggregate_additive :
    (∀ A B : List Row, total_nov (A ++ B) = total_nov A + total_nov B
      ∧ total_media (A ++ B) = total_media A + total_media B)
    ∧ (∃ A B : List Row, variacao (A ++ B) ≠ variacao A + variacao B)
    ∧ (∀ A B : List Row, variacao (A ++ B) =
        if total_media A + total_media B > 0 then
          ((total_nov A + total_nov B) / (total_media A + total_media B) - 1)
            * 100
        else 0) := by
  have hn : ∀ A B : List Row, total_nov (A ++ B) = total_nov A + total_nov B := by
    intro A B; simp [total_nov]
  have hm : ∀ A B : List Row,
      total_media (A ++ B) = total_media A + total_media B := by
    intro A B; simp [total_media]
  refine ⟨fun A B => ⟨hn A B, hm A B⟩, ⟨[rowRecife], [rowRecife], ?_⟩, ?_⟩
  · norm_num [variacao, total_media, total_nov, rowRecife, rawRecife, loadRow]
  · intro A B
    rw [variacao, hn, hm]

/-- **C7** — Every row the loader produces carries
`Media_Trimestre_Ant = (AGO + SET + OUT) / 3`, and later operations never
change it: filtering returns rows of its input unchanged (aggregation and
rendering only read the table). -/
theorem baseline_fixed_at_load :
    (∀ (rs : List RawRow) (r : Row), r ∈ loadRows rs →
        r.Media_Trimestre_Ant = (r.AGO + r.SET + r.OUT) / 3)
    ∧ ∀ (df : List Row) (cs ss : List String) (r : Row),
        r ∈ aplicarFiltros df cs ss → r ∈ df := by
  constructor
  · intro rs r hr
    obtain ⟨raw, _, rfl⟩ := List.mem_map.mp hr
    simp [loadRow]
  · intro df cs ss r hr
    rw [aplicarFiltros_eq_filter] at hr
    exact List.mem_of_mem_filter hr

/-- Witness for C7: the loaded `Recife` row has baseline
`(100 + 100 + 100) / 3 = 100`. -/
theorem baseline_fixed_at_load_witness :
    rowRecife.Media_Trimestre_Ant = 100 := by
  have h := baseline_fixed_at_load.1 [rawRecife] rowRecife
    (by simp [loadRows, rowRecife])
  rw [h]
  norm_num [rowRecife, rawRecife, loadRow]

/-- **C1** — On an unparseable payload, `load_data` is all-or-nothing: it
returns the empty sentinel frame together with the user-visible error
message, never a partial table.  However the script then *crashes* instead
of merely showing the error: it does not stop after the failed load, and
line 86 reads the `Cidade` column of the column-less frame, raising
`KeyError` — contradicting the spec's "surfaced as a user-visible error
message, not a crash". -/
theorem load_failure_crashes :
    load_data none = (DataFrame.emptyNoCols, some "Erro ao processar dados")
    ∧ columnCidade (load_data none).1 = Except.error "KeyError: Cidade"
    ∧ ∀ cs ss : List String,
        renderCycle none cs ss = CycleOutcome.crash "KeyError: Cidade" :=
  ⟨rfl, rfl, fun _ _ => rfl⟩

/-- **C8** — When the load succeeded and the filtered table is empty, the
cycle ends in the "no results" notice with all rendering skipped, and that
outcome is distinct both from a crash and from a rendered dashboard. -/
theorem empty_filter_no_results (input : LoadInput) (rows : List Row)
    (cs ss : List String)
    (hload : load_data input = (DataFrame.table rows, none))
    (hempty : aplicarFiltros rows cs ss = []) :
    renderCycle input cs ss = CycleOutcome.noResults
    ∧ (∀ m, CycleOutcome.noResults ≠ CycleOutcome.crash m)
    ∧ ∀ ds, CycleOutcome.noResults ≠ CycleOutcome.dashboard ds := by
  refine ⟨?_, fun m => by simp, fun ds => by simp⟩
  simp [renderCycle, hload, hempty]

/-- Witness for C8: a successfully loaded one-row table filtered with empty
selections yields the "no results" outcome. -/
theorem empty_filter_no_results_witness :
    renderCycle (some [rawRecife]) [] [] = CycleOutcome.noResults :=
  (empty_filter_no_results (some [rawRecife]) (loadRows [rawRecife]) [] []
    rfl rfl).1

/-- **C10** — The `logado` flag starts `false`; `verificar_senha` sets it to
`true` exactly when the submitted password equals the stored secret and on a
mismatch shows the error leaving the flag unchanged; no run of the gate ever
resets a `true` flag; and the dashboard body past the gate is rendered
exactly when the flag is `true` after the run. -/
theorem auth_gate_invariants :
    logadoInicial = false
    ∧ (∀ secret input logado,
        (verificar_senha secret input logado).1 = (logado || (input == secret)))
    ∧ (∀ secret input logado, input ≠ secret →
        verificar_senha secret input logado = (logado, true))
    ∧ (∀ secret attempt, (gateRun secret true attempt).1 = true)
    ∧ ∀ secret logado attempt,
        (gateRun secret logado attempt).2 = Rendered.dashboardBody ↔
          (gateRun secret logado attempt).1 = true := by
  refine ⟨rfl, ?_, ?_, ?_, ?_⟩
  · intro secret input logado
    by_cases h : input = secret <;> simp [verificar_senha, h]
  · intro secret input logado h
    simp [verificar_senha, h]
  · intro secret attempt
    cases attempt with
    | none => simp [gateRun]
    | some input =>
        by_cases h : input = secret <;> simp [gateRun, verificar_senha, h]
  · intro secret logado attempt
    cases attempt with
    | none => cases logado <;> simp [gateRun]
    | some input =>
        by_cases h : input = secret <;> cases logado <;>
          simp [gateRun, verificar_senha, h]

/-- Witness for C10: with the flag down, a wrong password leaves the flag
down and shows the error. -/
theorem auth_gate_invariants_witness :
    verificar_senha "segredo" "errada" false = (false, true) :=
  auth_gate_invariants.2.2.1 "segredo" "errada" false (by decide)

end ThalesVendas
